import Mathlib

/-!
Verification of the pose-scoring and feedback logic of the poze-ai-coach
repository.

The embedding covers:
* `scorePose`, `getPoseFeedback` (from `src/utils/poseScoring.ts`);
* `analyzePose` (from `src/hooks/usePoseDetection.ts`);
* the `side-chest` entry of the template catalog (from
  `src/components/PoseSelector.tsx`).

Modelling conventions:
* JavaScript numbers are modelled as exact rationals (every finite JS float
  is a rational); the one irrational operation, `Math.sqrt` inside
  `scorePose`, is modelled by `Real.sqrt` on the rational squared distance.
* `Math.round` is modelled by `round`, which agrees with JS
  (`Math.round x = ⌊x + 1/2⌋`).
* JS `Map` built with `set` keeps the last binding of a key, so a lookup is
  a `find?` over the reversed insertion list.
* Optional / possibly-`undefined` fields are modelled with `Option`.
-/

namespace PoseCoach

/-- A detected keypoint, as produced by the external pose detector:
`{name?, score?, x, y}` with the position in source-image pixels. -/
structure Keypoint where
  name : Option String
  score : Option ℚ
  x : ℚ
  y : ℚ
deriving DecidableEq

/-- A detected pose: `pose.keypoints` may be absent (`undefined` in JS). -/
structure Pose where
  keypoints : Option (List Keypoint)
deriving DecidableEq

/-- A normalized template target position. -/
structure Point where
  x : ℚ
  y : ℚ
deriving DecidableEq

/-- A pose template (`PoseTemplate` in `PoseSelector.tsx`).  The
`keypoints` object is modelled as an association list in declared key
order (JS object key order). -/
structure PoseTemplate where
  id : String
  name : String
  description : String
  image : String
  keypoints : List (String × Point)
deriving DecidableEq

/-- The result record of `scorePose` (`PoseScoreResult`). -/
structure PoseScoreResult where
  score : ℤ
  matchedKeypoints : ℕ
  totalKeypoints : ℕ
  missingKeypoints : List String
deriving DecidableEq

/-- The filter used when `scorePose` builds its keypoint map:
`keypoint.name && keypoint.score && keypoint.score > 0.3` (a JS string is
truthy iff it is nonempty; `score > 0.3` already rules out the falsy 0). -/
def scoreVisible (k : Keypoint) : Bool :=
  (match k.name with
   | some n => n != ""
   | none => false) &&
  (match k.score with
   | some c => decide ((0.3 : ℚ) < c)
   | none => false)

/-- Lookup in the keypoint map of `scorePose`: the map is built by
inserting every visible keypoint keyed by its name, later insertions
overwriting earlier ones. -/
def lookupDetected (ks : List Keypoint) (n : String) : Option Keypoint :=
  ((ks.filter scoreVisible).reverse).find? (fun k => k.name == some n)

/-- The static weight table `keypointWeights` of `scorePose`, including
the `|| 1.0` default for unlisted parts. -/
def keypointWeights (n : String) : ℚ :=
  if n = "nose" then 1.0
  else if n = "left_eye" then 0.8
  else if n = "right_eye" then 0.8
  else if n = "left_ear" then 0.7
  else if n = "right_ear" then 0.7
  else if n = "left_shoulder" then 1.5
  else if n = "right_shoulder" then 1.5
  else if n = "left_elbow" then 1.5
  else if n = "right_elbow" then 1.5
  else if n = "left_wrist" then 1.5
  else if n = "right_wrist" then 1.5
  else if n = "left_hip" then 0.8
  else if n = "right_hip" then 0.8
  else if n = "left_knee" then 0.6
  else if n = "right_knee" then 0.6
  else if n = "left_ankle" then 0.4
  else if n = "right_ankle" then 0.4
  else 1.0

/-- The squared axis-normalized distance computed inside `scorePose`:
`((templateX - detectedX)/imageWidth)² + ((templateY - detectedY)/imageHeight)²`
where `templateX = pt.x * imageWidth`, `templateY = pt.y * imageHeight`. -/
def normDistSq (pt : Point) (k : Keypoint) (w h : ℚ) : ℚ :=
  ((pt.x * w - k.x) / w) ^ 2 + ((pt.y * h - k.y) / h) ^ 2

/-- `const distance = Math.sqrt(...)` of `scorePose`. -/
noncomputable def partDistance (pt : Point) (k : Keypoint) (w h : ℚ) : ℝ :=
  Real.sqrt (normDistSq pt k w h : ℚ)

/-- `const keypointScore = Math.max(0, 1 - distance * 5)` of `scorePose`. -/
noncomputable def keypointScore (pt : Point) (k : Keypoint) (w h : ℚ) : ℝ :=
  max 0 (1 - partDistance pt k w h * 5)

/-- Accumulator of the `forEach` loop of `scorePose`. -/
structure ScoreAcc where
  totalScore : ℝ
  totalWeight : ℚ
  matched : List String
  missing : List String

/-- One iteration of the template loop of `scorePose`: the weight is always
accumulated; a detected part contributes `keypointScore * weight` and is
pushed on `matchedKeypoints`, an undetected one is pushed on
`missingKeypoints`. -/
noncomputable def scoreStep (ks : List Keypoint) (w h : ℚ) (acc : ScoreAcc)
    (e : String × Point) : ScoreAcc :=
  let weight := keypointWeights e.1
  match lookupDetected ks e.1 with
  | some k =>
      { acc with
        totalScore := acc.totalScore + keypointScore e.2 k w h * (weight : ℝ)
        totalWeight := acc.totalWeight + weight
        matched := acc.matched ++ [e.1] }
  | none =>
      { acc with
        totalWeight := acc.totalWeight + weight
        missing := acc.missing ++ [e.1] }

/-- `scorePose` from `src/utils/poseScoring.ts`.  The early return fires
when `pose.keypoints` is absent or empty; otherwise the template parts are
scored in declared order and the final score is
`Math.round(totalWeight > 0 ? totalScore / totalWeight * 100 : 0)`. -/
noncomputable def scorePose (pose : Pose) (t : PoseTemplate) (w h : ℚ) :
    PoseScoreResult :=
  match pose.keypoints with
  | none => ⟨0, 0, t.keypoints.length, t.keypoints.map Prod.fst⟩
  | some ks =>
      if ks.isEmpty then ⟨0, 0, t.keypoints.length, t.keypoints.map Prod.fst⟩
      else
        let acc := t.keypoints.foldl (scoreStep ks w h) ⟨0, 0, [], []⟩
        let finalScore : ℝ :=
          if 0 < acc.totalWeight then acc.totalScore / (acc.totalWeight : ℝ) * 100
          else 0
        ⟨round finalScore, acc.matched.length, t.keypoints.length, acc.missing⟩

/-- The `side-chest` template of the catalog in `PoseSelector.tsx`. -/
def sideChest : PoseTemplate :=
  { id := "side-chest"
    name := "Side Chest"
    description := "Stand sideways, flex the chest, and bring one arm across to emphasize chest development."
    image := "/poses/side-chest.png"
    keypoints :=
      [(("left_shoulder"), ⟨0.4, 0.25⟩),
       (("right_shoulder"), ⟨0.55, 0.25⟩),
       (("left_elbow"), ⟨0.3, 0.4⟩),
       (("right_elbow"), ⟨0.45, 0.4⟩),
       (("left_wrist"), ⟨0.45, 0.35⟩),
       (("right_wrist"), ⟨0.6, 0.35⟩),
       (("left_hip"), ⟨0.45, 0.55⟩),
       (("right_hip"), ⟨0.55, 0.55⟩),
       (("left_knee"), ⟨0.4, 0.8⟩),
       (("right_knee"), ⟨0.6, 0.8⟩)] }

/-- The overall-score message of `getPoseFeedback`, the first push of the
feedback array (threshold bands `>= 95 / >= 80 / >= 60 / >= 40 / else`). -/
def overallFeedback (score : ℤ) : String :=
  if 95 ≤ score then "Perfect! You\x27ve mastered this pose."
  else if 80 ≤ score then "Great job! Your pose is very close to perfect."
  else if 60 ≤ score then "Good effort! Keep adjusting to improve your score."
  else if 40 ≤ score then "You\x27re on the right track. Try to align your body more closely with the template."
  else "Keep practicing! Try to match the pose template more closely."

/-- `upperBodyKeypoints` of `getPoseFeedback`. -/
def upperBodyKeypoints : List String :=
  ["left_shoulder", "right_shoulder", "left_elbow", "right_elbow",
   "left_wrist", "right_wrist"]

/-- `lowerBodyKeypoints` of `getPoseFeedback`. -/
def lowerBodyKeypoints : List String :=
  ["left_hip", "right_hip", "left_knee", "right_knee"]

/-- JS `kp.replace('_', ' ')` with a string pattern replaces only the first
occurrence of the underscore. -/
def replaceFirstUnderscore : List Char → List Char
  | [] => []
  | c :: cs => if c = '_' then ' ' :: cs else c :: replaceFirstUnderscore cs

/-- The readable name of a keypoint (`kp.replace('_', ' ')`). -/
def readable (s : String) : String :=
  ⟨replaceFirstUnderscore s.data⟩

/-- The missing-upper-body part of `getPoseFeedback`: for at most 3 missing
upper-body parts a message naming them, otherwise a generic message. -/
def upperBodyFeedback (missing : List String) : List String :=
  let missingUpper := missing.filter (fun kp => upperBodyKeypoints.contains kp)
  if 0 < missingUpper.length then
    let readableKps := missingUpper.map readable
    if readableKps.length ≤ 3 then
      [("Make sure your ") ++ String.intercalate (", ") readableKps ++ " are visible to the camera."]
    else
      ["Several key upper body parts aren\x27t visible. Try adjusting your position."]
  else []

/-- The lower-body hint of `getPoseFeedback`. -/
def lowerBodyHint : String :=
  "For a complete pose, try to include your lower body in the frame if possible."

/-- The missing-lower-body part of `getPoseFeedback`: emitted only for the
two full-body templates, when a lower-body part is missing and the score is
below 70. -/
def lowerBodyFeedback (t : PoseTemplate) (r : PoseScoreResult) : List String :=
  if t.id = "front-double-biceps" ∨ t.id = "front-lat-spread" then
    let missingLower :=
      r.missingKeypoints.filter (fun kp => lowerBodyKeypoints.contains kp)
    if 0 < missingLower.length ∧ r.score < 70 then [lowerBodyHint] else []
  else []

/-- The `side-chest` coaching tip of `getPoseFeedback`. -/
def sideChestTip : String :=
  "Turn to the side more and bring your arm across your chest to emphasize your pectoral muscles."

/-- The pose-specific tip switch of `getPoseFeedback`, emitted only when
the score is below 70. -/
def poseTip (t : PoseTemplate) (score : ℤ) : List String :=
  if t.id = "front-double-biceps" then
    if score < 70 then ["Remember to keep your arms bent and biceps flexed. Face directly toward the camera."] else []
  else if t.id = "side-chest" then
    if score < 70 then [sideChestTip] else []
  else if t.id = "rear-lat-spread" then
    if score < 70 then ["Face away from the camera and spread your arms wider to showcase your back width."] else []
  else if t.id = "front-lat-spread" then
    if score < 70 then ["Spread your arms wider and push your lats out to create the illusion of a wider upper body."] else []
  else if t.id = "most-muscular" then
    if score < 70 then ["Bring your shoulders forward and flex all muscle groups simultaneously for maximum definition."] else []
  else []

/-- `getPoseFeedback` from `src/utils/poseScoring.ts`: overall message,
then (when parts are missing) the missing-upper-body and lower-body-hint
messages, then the pose-specific tip. -/
def getPoseFeedback (r : PoseScoreResult) (t : PoseTemplate) : List String :=
  overallFeedback r.score ::
    ((if 0 < r.missingKeypoints.length then
        upperBodyFeedback r.missingKeypoints ++ lowerBodyFeedback t r
      else []) ++
     poseTip t r.score)

/-- Severity of a feedback item. -/
inductive Severity
  | info
  | warning
  | error
  | success
deriving DecidableEq

/-- A feedback item of `analyzePose` (`PoseFeedback`). -/
structure PoseFeedback where
  message : String
  severity : Severity
  part : Option String
deriving DecidableEq

/-- The two app modes. -/
inductive PoseMode
  | fitness
  | photography
deriving DecidableEq

/-- The filter of `analyzePose`: `kp.score && kp.score > 0.2` (no name
check here, unlike `scorePose`). -/
def analyzeVisible (k : Keypoint) : Bool :=
  match k.score with
  | some c => decide ((0.2 : ℚ) < c)
  | none => false

/-- `getKeypoint` of `analyzePose`: lookup in the map built from the
filtered keypoints keyed by name, later insertions overwriting earlier
ones.  Its argument is the already-filtered list. -/
def getKeypoint (kps : List Keypoint) (n : String) : Option Keypoint :=
  kps.reverse.find? (fun k => k.name == some n)

/-- `hasUpperBody`: both shoulders present. -/
def hasUpperBody (kps : List Keypoint) : Bool :=
  (getKeypoint kps ("left_shoulder")).isSome &&
  (getKeypoint kps ("right_shoulder")).isSome

/-- `hasLowerBody`: both hips present. -/
def hasLowerBody (kps : List Keypoint) : Bool :=
  (getKeypoint kps ("left_hip")).isSome &&
  (getKeypoint kps ("right_hip")).isSome

/-- `hasFace`: nose present, or both eyes present. -/
def hasFace (kps : List Keypoint) : Bool :=
  (getKeypoint kps ("nose")).isSome ||
  ((getKeypoint kps ("left_eye")).isSome &&
   (getKeypoint kps ("right_eye")).isSome)

/-- The denominator of every slope computed in `analyzePose`:
`Math.max(0.1, rightX - leftX)`. -/
def slopeDenom (l r : Keypoint) : ℚ :=
  max 0.1 (r.x - l.x)

/-- The slope expression repeated at the shoulder, hip, knee and eye checks
of `analyzePose`: `Math.abs((r.y - l.y) / Math.max(0.1, r.x - l.x))`. -/
def slopeOf (l r : Keypoint) : ℚ :=
  |(r.y - l.y) / slopeDenom l r|

/-- The shoulder-levelness message of fitness mode. -/
def shoulderLevelMsg : PoseFeedback :=
  ⟨"Try to level your shoulders", Severity.info, some ("shoulders")⟩

/-- The shoulder-levelness check of fitness mode. -/
def shoulderCheckFitness (kps : List Keypoint) : List PoseFeedback :=
  if hasUpperBody kps then
    match getKeypoint kps ("left_shoulder"), getKeypoint kps ("right_shoulder") with
    | some l, some r => if 0.1 < slopeOf l r then [shoulderLevelMsg] else []
    | _, _ => []
  else []

/-- The hip- and knee-levelness checks of fitness mode (both inside the
`hasLowerBody` block; the knee check fires only if both knees are
visible). -/
def lowerCheckFitness (kps : List Keypoint) : List PoseFeedback :=
  if hasLowerBody kps then
    (match getKeypoint kps ("left_hip"), getKeypoint kps ("right_hip") with
     | some l, some r =>
         if 0.1 < slopeOf l r then
           [⟨"Try to level your hips", Severity.info, some ("hips")⟩]
         else []
     | _, _ => []) ++
    (match getKeypoint kps ("left_knee"), getKeypoint kps ("right_knee") with
     | some l, some r =>
         if 0.1 < slopeOf l r then
           [⟨"Try to level your knees", Severity.info, some ("knees")⟩]
         else []
     | _, _ => [])
  else []

/-- The back-posture check of fitness mode (the y-coordinates of the two
centers are computed in the source but unused). -/
def backCheckFitness (kps : List Keypoint) : List PoseFeedback :=
  if hasUpperBody kps && hasLowerBody kps then
    match getKeypoint kps ("left_shoulder"), getKeypoint kps ("right_shoulder"),
        getKeypoint kps ("left_hip"), getKeypoint kps ("right_hip") with
    | some ls, some rs, some lh, some rh =>
        let shoulderCenterX := (ls.x + rs.x) / 2
        let hipCenterX := (lh.x + rh.x) / 2
        if 0.1 < |shoulderCenterX - hipCenterX| then
          [⟨"Try to align your shoulders over your hips", Severity.info, some ("back")⟩]
        else []
    | _, _, _, _ => []
  else []

/-- The face checks of photography mode: eye-line levelness, then face
centering (`Math.abs(nose.x - 0.5) > 0.2`). -/
def faceCheckPhoto (kps : List Keypoint) : List PoseFeedback :=
  if hasFace kps then
    (match getKeypoint kps ("left_eye"), getKeypoint kps ("right_eye") with
     | some l, some r =>
         if 0.1 < slopeOf l r then
           [⟨"Try to level your head for a better pose", Severity.info, some ("head")⟩]
         else []
     | _, _ => []) ++
    (match getKeypoint kps ("nose") with
     | some nose =>
         if 0.2 < |nose.x - 0.5| then
           [⟨"Try to center your face in the frame", Severity.info, some ("position")⟩]
         else []
     | none => [])
  else []

/-- The shoulder check of photography mode. -/
def shoulderCheckPhoto (kps : List Keypoint) : List PoseFeedback :=
  if hasUpperBody kps then
    match getKeypoint kps ("left_shoulder"), getKeypoint kps ("right_shoulder") with
    | some l, some r =>
        if 0.1 < slopeOf l r then
          [⟨"Level your shoulders for a more balanced pose", Severity.info, some ("shoulders")⟩]
        else []
    | _, _ => []
  else []

/-- The positive message pushed when no check fired, chosen by the visible
body regions. -/
def perfectMsg (kps : List Keypoint) (mode : PoseMode) : PoseFeedback :=
  if hasUpperBody kps && hasLowerBody kps then
    ⟨if mode = PoseMode.fitness then "PERFECT! Your form is excellent!"
      else "PERFECT! Your pose looks amazing!", Severity.success, none⟩
  else if hasUpperBody kps then
    ⟨if mode = PoseMode.fitness then "PERFECT! Upper body form is excellent!"
      else "PERFECT! Upper body pose looks amazing!", Severity.success, none⟩
  else if hasFace kps then
    ⟨"PERFECT! Head position is excellent!", Severity.success, none⟩
  else
    ⟨"Some keypoints detected. Try to show more of your body for better feedback.", Severity.info, none⟩

/-- The low-confidence message of `analyzePose`. -/
def lowConfidenceMsg : PoseFeedback :=
  ⟨"Move closer to the camera or adjust lighting", Severity.info, none⟩

/-- `analyzePose` from `src/hooks/usePoseDetection.ts`.  `isPerfect` is set
to `false` exactly at each push site, so the source condition
`feedbackItems.length === 0 || isPerfect` holds iff no item was pushed. -/
def analyzePose (pose : Pose) (mode : PoseMode) : List PoseFeedback :=
  match pose.keypoints with
  | none => [⟨"No pose detected", Severity.info, none⟩]
  | some raw =>
      let keypoints := raw.filter analyzeVisible
      if keypoints.length < 3 then [lowConfidenceMsg]
      else
        let items :=
          match mode with
          | PoseMode.fitness =>
              shoulderCheckFitness keypoints ++ lowerCheckFitness keypoints ++
                backCheckFitness keypoints
          | PoseMode.photography =>
              faceCheckPhoto keypoints ++ shoulderCheckPhoto keypoints
        if items.isEmpty then [perfectMsg keypoints mode] else items

/-- Modelled from the spec wording of the weight table: upper-body parts
(shoulders, elbows, wrists) weigh 1.5, the nose 1.0, eyes 0.8, ears 0.7,
hips 0.8, knees 0.6, ankles 0.4, and any unlisted part defaults to 1.0.
Used only to compare the spec formula with `scorePose`. -/
def specWeight (n : String) : ℚ :=
  if n = "left_shoulder" ∨ n = "right_shoulder" ∨ n = "left_elbow" ∨
      n = "right_elbow" ∨ n = "left_wrist" ∨ n = "right_wrist" then 1.5
  else if n = "nose" then 1.0
  else if n = "left_eye" ∨ n = "right_eye" then 0.8
  else if n = "left_ear" ∨ n = "right_ear" then 0.7
  else if n = "left_hip" ∨ n = "right_hip" then 0.8
  else if n = "left_knee" ∨ n = "right_knee" then 0.6
  else if n = "left_ankle" ∨ n = "right_ankle" then 0.4
  else 1.0

/-- Spec formula: `totalWeight` sums the weights of all template parts. -/
def specTotalWeight (t : PoseTemplate) : ℚ :=
  (t.keypoints.map (fun e => specWeight e.1)).sum

/-- Spec formula: per-part similarity `max(0, 1 - 5*d)`, `d` the Euclidean
distance between the detected position and the template target scaled to
pixels, each axis divided by the frame width/height before squaring. -/
noncomputable def specSimilarity (pt : Point) (k : Keypoint) (w h : ℚ) : ℝ :=
  max 0 (1 - 5 * Real.sqrt ((((pt.x * w - k.x) / w) ^ 2 + ((pt.y * h - k.y) / h) ^ 2 : ℚ) : ℝ))

/-- Spec formula: `totalScore` sums `weight * similarity` over the matched
parts (those present in the detected keypoint set). -/
noncomputable def specTotalScore (ks : List Keypoint) (t : PoseTemplate) (w h : ℚ) : ℝ :=
  (t.keypoints.map (fun e =>
    match lookupDetected ks e.1 with
    | some k => (specWeight e.1 : ℝ) * specSimilarity e.2 k w h
    | none => 0)).sum

/-- The weight contributed by one template entry in `scorePose`. -/
def entryWeight (e : String × Point) : ℚ :=
  keypointWeights e.1

/-- The score contributed by one template entry in `scorePose` (0 when the
part is not detected). -/
noncomputable def entryScore (ks : List Keypoint) (w h : ℚ) (e : String × Point) : ℝ :=
  match lookupDetected ks e.1 with
  | some k => keypointScore e.2 k w h * (keypointWeights e.1 : ℝ)
  | none => 0

/-- Concrete detected keypoints used as witness data for template scoring:
the left shoulder exactly on the `side-chest` target for a 100×100 frame. -/
def shoulderExact : Keypoint :=
  ⟨some ("left_shoulder"), some 0.9, 40, 25⟩

/-- The same shoulder moved 10 pixels down (normalized distance 0.1). -/
def shoulderMoved : Keypoint :=
  ⟨some ("left_shoulder"), some 0.9, 40, 35⟩

/-- Witness pose for the score bounds. -/
def poseExact : Pose :=
  ⟨some [shoulderExact]⟩

/-- Concrete nose keypoint for the `analyzePose` fitness example. -/
def fitNose : Keypoint :=
  ⟨some ("nose"), some 0.9, 150, 50⟩

/-- Concrete left shoulder at `y = 100`. -/
def fitLS : Keypoint :=
  ⟨some ("left_shoulder"), some 0.9, 100, 100⟩

/-- Concrete right shoulder at `y = 140`, x-distance 100 from the left. -/
def fitRS : Keypoint :=
  ⟨some ("right_shoulder"), some 0.9, 200, 140⟩

/-- Witness keypoints for `analyzePose` in fitness mode: shoulders at
`y = 100` and `y = 140` with x-distance 100 (slope 0.4), plus a nose so
that at least 3 keypoints pass the confidence filter. -/
def fitKps : List Keypoint :=
  [fitNose, fitLS, fitRS]

/-- The fitness-mode witness pose. -/
def fitPose : Pose :=
  ⟨some fitKps⟩

/-! ### Characterization of the scoring loop -/

theorem foldl_scoreStep (ks : List Keypoint) (w h : ℚ) (l : List (String × Point))
    (a : ScoreAcc) :
    l.foldl (scoreStep ks w h) a =
      ⟨a.totalScore + (l.map (entryScore ks w h)).sum,
       a.totalWeight + (l.map entryWeight).sum,
       a.matched ++ (l.filter (fun e => (lookupDetected ks e.1).isSome)).map Prod.fst,
       a.missing ++ (l.filter (fun e => !(lookupDetected ks e.1).isSome)).map Prod.fst⟩ := by
  induction l generalizing a with
  | nil => simp
  | cons e l ih =>
    rcases hl : lookupDetected ks e.1 with _ | k <;>
      simp [scoreStep, hl, ih, entryScore, entryWeight, add_assoc, List.filter_cons]

theorem keypointWeights_pos (n : String) : 0 < keypointWeights n := by
  unfold keypointWeights
  positivity

theorem specWeight_eq (n : String) : specWeight n = keypointWeights n := by
  by_cases h : n = "nose"
  · simp [specWeight, keypointWeights, h]
  by_cases h2 : n = "left_eye"
  · simp [specWeight, keypointWeights, h2]
  by_cases h3 : n = "right_eye"
  · simp [specWeight, keypointWeights, h3]
  by_cases h4 : n = "left_ear"
  · simp [specWeight, keypointWeights, h4]
  by_cases h5 : n = "right_ear"
  · simp [specWeight, keypointWeights, h5]
  by_cases h6 : n = "left_shoulder"
  · simp [specWeight, keypointWeights, h6]
  by_cases h7 : n = "right_shoulder"
  · simp [specWeight, keypointWeights, h7]
  by_cases h8 : n = "left_elbow"
  · simp [specWeight, keypointWeights, h8]
  by_cases h9 : n = "right_elbow"
  · simp [specWeight, keypointWeights, h9]
  by_cases h10 : n = "left_wrist"
  · simp [specWeight, keypointWeights, h10]
  by_cases h11 : n = "right_wrist"
  · simp [specWeight, keypointWeights, h11]
  by_cases h12 : n = "left_hip"
  · simp [specWeight, keypointWeights, h12]
  by_cases h13 : n = "right_hip"
  · simp [specWeight, keypointWeights, h13]
  by_cases h14 : n = "left_knee"
  · simp [specWeight, keypointWeights, h14]
  by_cases h15 : n = "right_knee"
  · simp [specWeight, keypointWeights, h15]
  by_cases h16 : n = "left_ankle"
  · simp [specWeight, keypointWeights, h16]
  by_cases h17 : n = "right_ankle"
  · simp [specWeight, keypointWeights, h17]
  simp [specWeight, keypointWeights, h, h2, h3, h4, h5, h6, h7, h8, h9, h10,
    h11, h12, h13, h14, h15, h16, h17]

theorem lookupDetected_nil (n : String) : lookupDetected [] n = none := rfl

theorem lookupDetected_ne_nil {ks : List Keypoint} {n : String} {k : Keypoint}
    (h : lookupDetected ks n = some k) : ¬ks.isEmpty := by
  intro he
  rw [List.isEmpty_iff] at he
  subst he
  simp [lookupDetected_nil] at h

theorem sum_map_nonneg {α M : Type*} [OrderedAddCommMonoid M] {l : List α} {f : α → M}
    (h : ∀ e ∈ l, 0 ≤ f e) : 0 ≤ (l.map f).sum := by
  induction l with
  | nil => simp
  | cons e l ih =>
    simp only [List.map_cons, List.sum_cons]
    exact add_nonneg (h e (by simp)) (ih fun x hx => h x (by simp [hx]))

theorem sum_map_le_sum_map {α M : Type*} [OrderedAddCommMonoid M] {l : List α}
    {f g : α → M} (h : ∀ e ∈ l, f e ≤ g e) : (l.map f).sum ≤ (l.map g).sum := by
  induction l with
  | nil => simp
  | cons e l ih =>
    simp only [List.map_cons, List.sum_cons]
    exact add_le_add (h e (by simp)) (ih fun x hx => h x (by simp [hx]))

theorem cast_sum_map {α : Type*} {l : List α} (f : α → ℚ) :
    (((l.map f).sum : ℚ) : ℝ) = (l.map (fun e => ((f e : ℚ) : ℝ))).sum := by
  induction l with
  | nil => simp
  | cons e l ih => push_cast [List.map_cons, List.sum_cons, ih]; ring

theorem round_mono_real {x y : ℝ} (h : x ≤ y) : round x ≤ round y := by
  rw [round_eq, round_eq]
  exact Int.floor_le_floor (by linarith)

theorem length_filter_add_length_filter_not {α : Type*} (l : List α) (p : α → Bool) :
    (l.filter p).length + (l.filter (fun e => !p e)).length = l.length := by
  induction l with
  | nil => rfl
  | cons e l ih =>
    rcases hp : p e <;> simp [List.filter_cons, hp, ← ih] <;> omega

/-- Claim C2: `scorePose` records each template part as exactly one of
matched or missing: `matchedKeypoints + |missingKeypoints| = totalKeypoints
= |template.keypoints|`, and every missing name is a template part name. -/
theorem scorePose_partition (pose : Pose) (t : PoseTemplate) (w h : ℚ) :
    (scorePose pose t w h).matchedKeypoints +
        (scorePose pose t w h).missingKeypoints.length =
      (scorePose pose t w h).totalKeypoints
    ∧ (scorePose pose t w h).totalKeypoints = t.keypoints.length
    ∧ ∀ n ∈ (scorePose pose t w h).missingKeypoints, n ∈ t.keypoints.map Prod.fst := by
  rcases pose with ⟨_ | ks⟩
  · simp [scorePose]
  by_cases he : ks.isEmpty
  · simp [scorePose, he]
  · refine ⟨?_, by simp [scorePose, he], ?_⟩
    · simp only [scorePose, he, Bool.false_eq_true, if_false, foldl_scoreStep,
        List.nil_append, zero_add, List.length_map]
      exact length_filter_add_length_filter_not t.keypoints _
    · simp only [scorePose, he, Bool.false_eq_true, if_false, foldl_scoreStep,
        List.nil_append, zero_add]
      intro n hn
      obtain ⟨e, he', rfl⟩ := List.mem_map.mp hn
      exact List.mem_map.mpr ⟨e, List.mem_of_mem_filter he', rfl⟩

/-- Claim C2 witness: with one visible left shoulder scored against the
`side-chest` template, 1 matched + 9 missing = 10 template parts, and the
missing part `left_hip` is a template part name. -/
theorem scorePose_partition_witness :
    ((scorePose poseExact sideChest 100 100).matchedKeypoints +
        (scorePose poseExact sideChest 100 100).missingKeypoints.length =
      (scorePose poseExact sideChest 100 100).totalKeypoints)
    ∧ ("left_hip") ∈ sideChest.keypoints.map Prod.fst :=
  ⟨(scorePose_partition poseExact sideChest 100 100).1,
   (scorePose_partition poseExact sideChest 100 100).2.2 ("left_hip")
     (by have hvis : scoreVisible shoulderExact = true := by
           simp [scoreVisible, shoulderExact]
           norm_num
         have hname : shoulderExact.name = some ("left_shoulder") := rfl
         have hlk : lookupDetected [shoulderExact] ("left_hip") = none := by
           simp [lookupDetected, List.filter, hvis, List.find?, hname]
         simp only [scorePose, poseExact, List.isEmpty_cons, Bool.false_eq_true,
           if_false, foldl_scoreStep, List.nil_append]
         exact List.mem_map.mpr
           ⟨(("left_hip"), ⟨0.45, 0.55⟩),
            List.mem_filter.mpr ⟨by simp [sideChest], by simp [hlk]⟩, rfl⟩)⟩

/-- Claim C3: when the detected keypoint set is empty (no keypoints at all,
or none passing the name-and-confidence-above-0.3 filter), `scorePose`
returns score 0, 0 matched, all template parts missing in declared order. -/
theorem scorePose_emptyDetected (pose : Pose) (t : PoseTemplate) (w h : ℚ)
    (hemp : (pose.keypoints.getD []).filter scoreVisible = []) :
    scorePose pose t w h = ⟨0, 0, t.keypoints.length, t.keypoints.map Prod.fst⟩ := by
  rcases pose with ⟨_ | ks⟩
  · rfl
  simp only [Option.getD_some] at hemp
  by_cases he : ks.isEmpty
  · simp [scorePose, he]
  · have hlook : ∀ n, lookupDetected ks n = none := by
      intro n
      unfold lookupDetected
      rw [hemp]
      rfl
    have hez : ∀ e ∈ t.keypoints, entryScore ks w h e = 0 := by
      intro e _
      simp [entryScore, hlook]
    simp [scorePose, he, foldl_scoreStep, hlook, List.map_congr_left hez]

/-- Claim C3 witness: an empty keypoint list scored against `side-chest`. -/
theorem scorePose_emptyDetected_witness :
    scorePose ⟨some []⟩ sideChest 640 480 =
      ⟨0, 0, 10,
       [("left_shoulder"), ("right_shoulder"), ("left_elbow"), ("right_elbow"),
        ("left_wrist"), ("right_wrist"), ("left_hip"), ("right_hip"),
        ("left_knee"), ("right_knee")]⟩ :=
  (scorePose_emptyDetected ⟨some []⟩ sideChest 640 480 rfl).trans (by simp [sideChest])

theorem entryScore_nonneg (ks : List Keypoint) (w h : ℚ) (e : String × Point) :
    0 ≤ entryScore ks w h e := by
  unfold entryScore
  rcases lookupDetected ks e.1 with _ | k
  · simp
  · exact mul_nonneg (le_max_left 0 _) (by exact_mod_cast (keypointWeights_pos e.1).le)

theorem keypointScore_le_one (pt : Point) (k : Keypoint) (w h : ℚ) :
    keypointScore pt k w h ≤ 1 := by
  unfold keypointScore
  apply max_le (by norm_num)
  have hd : 0 ≤ partDistance pt k w h := Real.sqrt_nonneg _
  nlinarith

theorem entryScore_le_weight (ks : List Keypoint) (w h : ℚ) (e : String × Point) :
    entryScore ks w h e ≤ ((entryWeight e : ℚ) : ℝ) := by
  unfold entryScore entryWeight
  rcases lookupDetected ks e.1 with _ | k
  · show (0 : ℝ) ≤ ((keypointWeights e.1 : ℚ) : ℝ)
    exact_mod_cast (keypointWeights_pos e.1).le
  · calc keypointScore e.2 k w h * ((keypointWeights e.1 : ℚ) : ℝ)
        ≤ 1 * ((keypointWeights e.1 : ℚ) : ℝ) := by
          apply mul_le_mul_of_nonneg_right (keypointScore_le_one e.2 k w h)
          exact_mod_cast (keypointWeights_pos e.1).le
      _ = _ := one_mul _

theorem round_hundred : round (100 : ℝ) = 100 := by
  rw [show (100 : ℝ) = ((100 : ℤ) : ℝ) by norm_num, round_intCast]

/-- Claim C4: the score returned by `scorePose` always lies in `[0, 100]`
(for positive frame dimensions). -/
theorem scorePose_score_in_range (pose : Pose) (t : PoseTemplate) (w h : ℚ)
    (hw : 0 < w) (hh : 0 < h) :
    0 ≤ (scorePose pose t w h).score ∧ (scorePose pose t w h).score ≤ 100 := by
  rcases pose with ⟨_ | ks⟩
  · simp [scorePose]
  by_cases he : ks.isEmpty
  · simp [scorePose, he]
  simp only [scorePose, he, Bool.false_eq_true, if_false, foldl_scoreStep, zero_add]
  have hS0 : (0 : ℝ) ≤ (t.keypoints.map (entryScore ks w h)).sum :=
    sum_map_nonneg fun e _ => entryScore_nonneg ks w h e
  have hSW : (t.keypoints.map (entryScore ks w h)).sum ≤
      (((t.keypoints.map entryWeight).sum : ℚ) : ℝ) := by
    rw [cast_sum_map]
    exact sum_map_le_sum_map fun e _ => entryScore_le_weight ks w h e
  have hfs : (0 : ℝ) ≤ (if 0 < (t.keypoints.map entryWeight).sum then
        (t.keypoints.map (entryScore ks w h)).sum /
          (((t.keypoints.map entryWeight).sum : ℚ) : ℝ) * 100
      else 0) ∧
      (if 0 < (t.keypoints.map entryWeight).sum then
        (t.keypoints.map (entryScore ks w h)).sum /
          (((t.keypoints.map entryWeight).sum : ℚ) : ℝ) * 100
      else 0) ≤ 100 := by
    split_ifs with hW
    · have hWR : (0 : ℝ) < (((t.keypoints.map entryWeight).sum : ℚ) : ℝ) := by
        exact_mod_cast hW
      constructor
      · positivity
      · have hq : (t.keypoints.map (entryScore ks w h)).sum /
            (((t.keypoints.map entryWeight).sum : ℚ) : ℝ) ≤ 1 :=
          (div_le_one hWR).mpr hSW
        nlinarith
    · exact ⟨le_rfl, by norm_num⟩
  constructor
  · have := round_mono_real hfs.1
    rwa [round_zero] at this
  · have := round_mono_real hfs.2
    rwa [round_hundred] at this

/-- Claim C4 witness: a concrete pose scored against `side-chest` in a
100×100 frame. -/
theorem scorePose_score_in_range_witness :
    0 ≤ (scorePose poseExact sideChest 100 100).score ∧
      (scorePose poseExact sideChest 100 100).score ≤ 100 :=
  scorePose_score_in_range poseExact sideChest 100 100 (by norm_num) (by norm_num)

/-- Claim C1: for every template, detected keypoint set and positive frame
dimensions, the score computed by `scorePose` equals
`round(100 * totalScore / totalWeight)` with the weight table, total weight
and per-part `weight * max(0, 1 - 5*d)` contributions as the spec states
them (`specWeight`, `specTotalWeight`, `specTotalScore`). -/
theorem scorePose_eq_specFormula (ks : List Keypoint) (t : PoseTemplate) (w h : ℚ)
    (hw : 0 < w) (hh : 0 < h) :
    (scorePose ⟨some ks⟩ t w h).score =
      round (100 * specTotalScore ks t w h / ((specTotalWeight t : ℚ) : ℝ)) := by
  have hterm : ∀ e ∈ t.keypoints,
      (match lookupDetected ks e.1 with
       | some k => ((specWeight e.1 : ℚ) : ℝ) * specSimilarity e.2 k w h
       | none => (0 : ℝ)) = entryScore ks w h e := by
    intro e _
    unfold entryScore specSimilarity keypointScore partDistance normDistSq
    rcases lookupDetected ks e.1 with _ | k
    · rfl
    · rw [specWeight_eq, mul_comm]
      ring_nf
  have hsum : specTotalScore ks t w h = (t.keypoints.map (entryScore ks w h)).sum := by
    unfold specTotalScore
    exact congrArg List.sum (List.map_congr_left hterm)
  have hwsum : specTotalWeight t = (t.keypoints.map entryWeight).sum := by
    unfold specTotalWeight entryWeight
    exact congrArg List.sum (List.map_congr_left fun e _ => specWeight_eq e.1)
  have hWnn : 0 ≤ (t.keypoints.map entryWeight).sum :=
    sum_map_nonneg fun e _ => (keypointWeights_pos e.1).le
  by_cases hself : ks.isEmpty
  · rw [List.isEmpty_iff] at hself
    subst hself
    have hze : ∀ e ∈ t.keypoints, entryScore [] w h e = 0 := by
      intro e _
      simp [entryScore, lookupDetected_nil]
    simp [scorePose, hsum, List.map_congr_left hze]
  · simp only [scorePose, hself, Bool.false_eq_true, if_false, foldl_scoreStep,
      zero_add]
    rw [hsum, hwsum]
    congr 1
    by_cases hW : 0 < (t.keypoints.map entryWeight).sum
    · rw [if_pos hW, div_mul_eq_mul_div, mul_comm]
    · rw [if_neg hW, le_antisymm (not_lt.mp hW) hWnn]
      push_cast
      rw [div_zero]
/-- Claim C1 witness: one visible left shoulder against `side-chest` in a
100×100 frame. -/
theorem scorePose_eq_specFormula_witness :
    (scorePose ⟨some [shoulderExact]⟩ sideChest 100 100).score =
      round (100 * specTotalScore [shoulderExact] sideChest 100 100 /
        ((specTotalWeight sideChest : ℚ) : ℝ)) :=
  scorePose_eq_specFormula [shoulderExact] sideChest 100 100 (by norm_num) (by norm_num)

/-- Claim C6: holding the template, the frame dimensions and all other
detected keypoints fixed, if the detected position of one matched part
moves so that its axis-normalized distance from the template target does
not decrease, the score returned by `scorePose` does not increase. -/
theorem scorePose_mono_in_distance (t : PoseTemplate) (w h : ℚ)
    (l₁ l₂ : List Keypoint) (n : String) (k₁ k₂ : Keypoint)
    (hothers : ∀ m, m ≠ n → lookupDetected l₁ m = lookupDetected l₂ m)
    (h₁ : lookupDetected l₁ n = some k₁) (h₂ : lookupDetected l₂ n = some k₂)
    (hd : ∀ p : Point, (n, p) ∈ t.keypoints →
      partDistance p k₁ w h ≤ partDistance p k₂ w h) :
    (scorePose ⟨some l₂⟩ t w h).score ≤ (scorePose ⟨some l₁⟩ t w h).score := by
  have he₁ : ¬l₁.isEmpty = true := lookupDetected_ne_nil h₁
  have he₂ : ¬l₂.isEmpty = true := lookupDetected_ne_nil h₂
  have hes : ∀ e ∈ t.keypoints, entryScore l₂ w h e ≤ entryScore l₁ w h e := by
    intro e he
    by_cases hen : e.1 = n
    · have hmem : (n, e.2) ∈ t.keypoints := by
        rw [← hen]
        rwa [Prod.mk.eta]
      unfold entryScore
      rw [hen, h₁, h₂]
      apply mul_le_mul_of_nonneg_right ?_ (by exact_mod_cast (keypointWeights_pos n).le)
      unfold keypointScore
      apply max_le_max le_rfl
      have hdist := hd e.2 hmem
      linarith
    · unfold entryScore
      rw [hothers e.1 hen]
  have hS : (t.keypoints.map (entryScore l₂ w h)).sum ≤
      (t.keypoints.map (entryScore l₁ w h)).sum :=
    sum_map_le_sum_map hes
  simp only [scorePose, he₁, he₂, Bool.false_eq_true, if_false, foldl_scoreStep,
    zero_add]
  apply round_mono_real
  split_ifs with hW
  · have hWR : (0 : ℝ) < (((t.keypoints.map entryWeight).sum : ℚ) : ℝ) := by
      exact_mod_cast hW
    have := (div_le_div_right hWR).mpr hS
    nlinarith
  · exact le_rfl

/-- Claim C6 witness: moving the left shoulder from the exact `side-chest`
target (distance 0) to 10 pixels below it (normalized distance 0.1) does
not increase the score. -/
theorem scorePose_mono_in_distance_witness :
    (scorePose ⟨some [shoulderMoved]⟩ sideChest 100 100).score ≤
      (scorePose ⟨some [shoulderExact]⟩ sideChest 100 100).score := by
  have hvis1 : scoreVisible shoulderExact = true := by
    simp [scoreVisible, shoulderExact]
    norm_num
  have hvis2 : scoreVisible shoulderMoved = true := by
    simp [scoreVisible, shoulderMoved]
    norm_num
  have hname1 : shoulderExact.name = some ("left_shoulder") := rfl
  have hname2 : shoulderMoved.name = some ("left_shoulder") := rfl
  apply scorePose_mono_in_distance sideChest 100 100 [shoulderExact]
    [shoulderMoved] ("left_shoulder") shoulderExact shoulderMoved
  · intro m hm
    have hne : (some ("left_shoulder") == some m) = false := by
      apply beq_eq_false_iff_ne.mpr
      intro hc
      exact hm (Option.some_injective String hc).symm
    simp [lookupDetected, List.filter, hvis1, hvis2, List.find?, hname1, hname2, hne]
  · simp [lookupDetected, List.filter, hvis1, List.find?, hname1]
  · simp [lookupDetected, List.filter, hvis2, List.find?, hname2]
  · intro p hp
    simp [sideChest] at hp
    subst hp
    unfold partDistance normDistSq
    apply Real.sqrt_le_sqrt
    apply Rat.cast_le.mpr
    simp [shoulderExact, shoulderMoved]
    norm_num

/-- Claim C5: the first message of `getPoseFeedback` is the overall-score
message chosen by inclusive-lower-bound, mutually exclusive, exhaustive
threshold bands: `[95,∞)` mastered, `[80,95)` very close, `[60,80)` good
effort, `[40,60)` on the right track, `(-∞,40)` keep practicing. -/
theorem getPoseFeedback_first_message (r : PoseScoreResult) (t : PoseTemplate) :
    (95 ≤ r.score →
        (getPoseFeedback r t).head? = some ("Perfect! You\x27ve mastered this pose."))
    ∧ (80 ≤ r.score ∧ r.score < 95 →
        (getPoseFeedback r t).head? = some ("Great job! Your pose is very close to perfect."))
    ∧ (60 ≤ r.score ∧ r.score < 80 →
        (getPoseFeedback r t).head? = some ("Good effort! Keep adjusting to improve your score."))
    ∧ (40 ≤ r.score ∧ r.score < 60 →
        (getPoseFeedback r t).head? = some ("You\x27re on the right track. Try to align your body more closely with the template."))
    ∧ (r.score < 40 →
        (getPoseFeedback r t).head? = some ("Keep practicing! Try to match the pose template more closely.")) := by
  have hh : (getPoseFeedback r t).head? = some (overallFeedback r.score) := rfl
  rw [hh]
  unfold overallFeedback
  refine ⟨fun hb => ?_, fun hb => ?_, fun hb => ?_, fun hb => ?_, fun hb => ?_⟩ <;>
    split_ifs <;> first | rfl | omega

/-- Claim C5 witness: a score of 85 falls in the `[80,95)` band. -/
theorem getPoseFeedback_first_message_witness :
    (getPoseFeedback ⟨85, 10, 10, []⟩ sideChest).head? =
      some ("Great job! Your pose is very close to perfect.") :=
  (getPoseFeedback_first_message ⟨85, 10, 10, []⟩ sideChest).2.1
    (by constructor <;> norm_num)

theorem upperMsg_ne_hint (s t : String) :
    ("Make sure your " ++ s ++ t) ≠ lowerBodyHint := by
  intro hcontra
  have h2 : ("Make sure your " ++ s ++ t).data.head? = lowerBodyHint.data.head? := by
    rw [hcontra]
  rw [String.data_append, String.data_append] at h2
  simp [List.head?_append, lowerBodyHint] at h2

theorem upperMsg_ne_tip (s t : String) :
    ("Make sure your " ++ s ++ t) ≠ sideChestTip := by
  intro hcontra
  have h2 : ("Make sure your " ++ s ++ t).data.head? = sideChestTip.data.head? := by
    rw [hcontra]
  rw [String.data_append, String.data_append] at h2
  simp [List.head?_append, sideChestTip] at h2

theorem hint_not_mem_upperBodyFeedback (missing : List String) :
    lowerBodyHint ∉ upperBodyFeedback missing := by
  simp only [upperBodyFeedback]
  split_ifs <;> simp only [List.mem_singleton, List.not_mem_nil, not_false_iff]
  · exact fun hc => upperMsg_ne_hint _ _ hc.symm
  · intro hc
    rw [eq_comm] at hc
    revert hc
    decide

theorem tip_not_mem_upperBodyFeedback (missing : List String) :
    sideChestTip ∉ upperBodyFeedback missing := by
  simp only [upperBodyFeedback]
  split_ifs <;> simp only [List.mem_singleton, List.not_mem_nil, not_false_iff]
  · exact fun hc => upperMsg_ne_tip _ _ hc.symm
  · intro hc
    rw [eq_comm] at hc
    revert hc
    decide

theorem overallFeedback_ne_hint (sc : ℤ) : overallFeedback sc ≠ lowerBodyHint := by
  unfold overallFeedback
  split_ifs <;> decide

theorem overallFeedback_ne_tip (sc : ℤ) : overallFeedback sc ≠ sideChestTip := by
  unfold overallFeedback
  split_ifs <;> decide

theorem lowerBodyFeedback_sideChest (r : PoseScoreResult) :
    lowerBodyFeedback sideChest r = [] := by
  simp [lowerBodyFeedback, sideChest]

theorem poseTip_sideChest (score : ℤ) :
    poseTip sideChest score = if score < 70 then [sideChestTip] else [] := by
  simp [poseTip, sideChest]

/-- Claim C9: against the `side-chest` template, every score result below
70 makes `getPoseFeedback` end with the side-chest coaching tip and never
contain the include-your-lower-body hint (side-chest is not a full-body
template), and a score of at least 70 produces no side-chest tip. -/
theorem getPoseFeedback_sideChest (r : PoseScoreResult) :
    (r.score < 70 →
        (getPoseFeedback r sideChest).getLast? = some sideChestTip
        ∧ lowerBodyHint ∉ getPoseFeedback r sideChest)
    ∧ (70 ≤ r.score → sideChestTip ∉ getPoseFeedback r sideChest) := by
  constructor
  · intro hs
    constructor
    · unfold getPoseFeedback
      rw [lowerBodyFeedback_sideChest, poseTip_sideChest, if_pos hs]
      rw [List.append_nil, ← List.cons_append]
      split_ifs <;> exact List.getLast?_concat _
    · unfold getPoseFeedback
      rw [lowerBodyFeedback_sideChest, poseTip_sideChest, if_pos hs]
      intro hmem
      simp only [List.append_nil, List.mem_cons, List.mem_append,
        List.mem_singleton] at hmem
      rcases hmem with hc | hc | hc
      · exact overallFeedback_ne_hint r.score hc.symm
      · split_ifs at hc
        · exact hint_not_mem_upperBodyFeedback _ hc
        · simp at hc
      · exact absurd hc (by decide)
  · intro hs
    unfold getPoseFeedback
    rw [lowerBodyFeedback_sideChest, poseTip_sideChest, if_neg (not_lt.mpr hs)]
    intro hmem
    simp only [List.append_nil, List.mem_cons, List.mem_append,
      List.not_mem_nil, or_false] at hmem
    rcases hmem with hc | hc
    · exact overallFeedback_ne_tip r.score hc.symm
    · split_ifs at hc
      · exact tip_not_mem_upperBodyFeedback _ hc
      · simp at hc

/-- Claim C9 witness: a score of 50 with both hips and both knees missing. -/
theorem getPoseFeedback_sideChest_witness :
    (getPoseFeedback
        ⟨50, 6, 10, [("left_hip"), ("right_hip"), ("left_knee"), ("right_knee")]⟩
        sideChest).getLast? = some sideChestTip
    ∧ lowerBodyHint ∉
        getPoseFeedback
          ⟨50, 6, 10, [("left_hip"), ("right_hip"), ("left_knee"), ("right_knee")]⟩
          sideChest :=
  (getPoseFeedback_sideChest
      ⟨50, 6, 10, [("left_hip"), ("right_hip"), ("left_knee"), ("right_knee")]⟩).1
    (by norm_num)

/-- Claim C8: in either mode, a pose whose keypoints contain fewer than 3
entries with confidence above 0.2 (in particular a pose with zero
keypoints) produces exactly the single low-confidence info message and no
geometric-check message. -/
theorem analyzePose_lowConfidence (mode : PoseMode) (l : List Keypoint)
    (h : (l.filter analyzeVisible).length < 3) :
    analyzePose ⟨some l⟩ mode = [lowConfidenceMsg] := by
  simp [analyzePose, h]

/-- Claim C8 witness: zero detected keypoints in photography mode. -/
theorem analyzePose_lowConfidence_witness :
    analyzePose ⟨some []⟩ PoseMode.photography = [lowConfidenceMsg] :=
  analyzePose_lowConfidence PoseMode.photography [] (by simp)

/-- Claim C10: every slope in `analyzePose` divides by
`max(0.1, x-difference)`, which is always positive, so no division by zero
occurs, and `analyzePose` returns a (nonempty) feedback list for every
input pose and mode. -/
theorem analyzePose_total_and_slopeDenom_pos :
    (∀ (pose : Pose) (mode : PoseMode), 0 < (analyzePose pose mode).length)
    ∧ ∀ l r : Keypoint, 0 < slopeDenom l r := by
  constructor
  · intro pose mode
    rcases pose with ⟨_ | raw⟩
    · simp [analyzePose]
    by_cases h3 : (raw.filter analyzeVisible).length < 3
    · simp [analyzePose, h3]
    rcases mode <;>
      · simp only [analyzePose, h3, if_false]
        split_ifs with hi
        · simp
        · simp only [List.isEmpty_iff] at hi
          exact List.length_pos.mpr hi
  · intro l r
    unfold slopeDenom
    exact lt_max_of_lt_left (by norm_num)

theorem mem_lowerCheckFitness (kps : List Keypoint) (x : PoseFeedback)
    (hx : x ∈ lowerCheckFitness kps) :
    x = ⟨"Try to level your hips", Severity.info, some ("hips")⟩
    ∨ x = ⟨"Try to level your knees", Severity.info, some ("knees")⟩ := by
  simp only [lowerCheckFitness] at hx
  split_ifs at hx
  · rcases List.mem_append.mp hx with hx2 | hx2
    · refine Or.inl ?_
      split at hx2
      · split_ifs at hx2
        · simpa using hx2
        · simp at hx2
      · simp at hx2
    · refine Or.inr ?_
      split at hx2
      · split_ifs at hx2
        · simpa using hx2
        · simp at hx2
      · simp at hx2
  · simp at hx

theorem mem_backCheckFitness (kps : List Keypoint) (x : PoseFeedback)
    (hx : x ∈ backCheckFitness kps) :
    x = ⟨"Try to align your shoulders over your hips", Severity.info, some ("back")⟩ := by
  simp only [backCheckFitness] at hx
  split_ifs at hx
  · split at hx
    · split_ifs at hx
      · simpa using hx
      · simp at hx
    · simp at hx
  · simp at hx

theorem perfectMsg_part_none (kps : List Keypoint) (mode : PoseMode) :
    (perfectMsg kps mode).part = none := by
  unfold perfectMsg
  split_ifs <;> rfl

theorem shoulderLevelMsg_ne_perfectMsg (kps : List Keypoint) (mode : PoseMode) :
    shoulderLevelMsg ≠ perfectMsg kps mode := by
  intro hc
  have hp : shoulderLevelMsg.part = (perfectMsg kps mode).part := by rw [hc]
  rw [perfectMsg_part_none] at hp
  simp [shoulderLevelMsg] at hp

/-- Claim C7 (amended): in fitness mode, when at least 3 keypoints pass the
0.2 confidence filter and both shoulders are detected, `analyzePose` emits
the shoulder-levelness message — whose severity is info, not warning — if
and only if the absolute slope of the shoulder line exceeds 0.1. -/
theorem analyzePose_shoulder_levelness (l : List Keypoint) (lsh rsh : Keypoint)
    (hn : 3 ≤ (l.filter analyzeVisible).length)
    (hl : getKeypoint (l.filter analyzeVisible) ("left_shoulder") = some lsh)
    (hr : getKeypoint (l.filter analyzeVisible) ("right_shoulder") = some rsh) :
    shoulderLevelMsg ∈ analyzePose ⟨some l⟩ PoseMode.fitness ↔
      0.1 < slopeOf lsh rsh := by
  have hn' : ¬(l.filter analyzeVisible).length < 3 := not_lt.mpr hn
  have hUp : hasUpperBody (l.filter analyzeVisible) = true := by
    simp [hasUpperBody, hl, hr]
  have hsc : shoulderCheckFitness (l.filter analyzeVisible) =
      if 0.1 < slopeOf lsh rsh then [shoulderLevelMsg] else [] := by
    simp [shoulderCheckFitness, hUp, hl, hr]
  simp only [analyzePose, hn', if_false]
  rw [hsc]
  constructor
  · intro hmem
    by_contra hslope
    rw [if_neg hslope] at hmem
    simp only [List.nil_append] at hmem
    split_ifs at hmem
    · simp only [List.mem_singleton] at hmem
      exact shoulderLevelMsg_ne_perfectMsg _ _ hmem
    · rcases List.mem_append.mp hmem with hx | hx
      · rcases mem_lowerCheckFitness _ _ hx with hc | hc <;>
          simp [shoulderLevelMsg] at hc
      · have := mem_backCheckFitness _ _ hx
        simp [shoulderLevelMsg] at this
  · intro hslope
    rw [if_pos hslope]
    simp

/-- Claim C7 witness: shoulders at `y = 100` and `y = 140` with x-distance
100 (slope 0.4 > 0.1) make the shoulder-levelness message appear. -/
theorem analyzePose_shoulder_levelness_witness :
    shoulderLevelMsg ∈ analyzePose ⟨some fitKps⟩ PoseMode.fitness := by
  have hv1 : analyzeVisible fitNose = true := by
    simp [analyzeVisible, fitNose]
    norm_num
  have hv2 : analyzeVisible fitLS = true := by
    simp [analyzeVisible, fitLS]
    norm_num
  have hv3 : analyzeVisible fitRS = true := by
    simp [analyzeVisible, fitRS]
    norm_num
  have hfil : fitKps.filter analyzeVisible = fitKps := by
    simp [fitKps, List.filter, hv1, hv2, hv3]
  have hnN : fitNose.name = some ("nose") := rfl
  have hnLS : fitLS.name = some ("left_shoulder") := rfl
  have hnRS : fitRS.name = some ("right_shoulder") := rfl
  have hn : 3 ≤ (fitKps.filter analyzeVisible).length := by
    rw [hfil]
    simp [fitKps]
  have hgLS : getKeypoint (fitKps.filter analyzeVisible) ("left_shoulder") = some fitLS := by
    rw [hfil]
    simp [getKeypoint, fitKps, List.find?, hnN, hnLS, hnRS]
  have hgRS : getKeypoint (fitKps.filter analyzeVisible) ("right_shoulder") = some fitRS := by
    rw [hfil]
    simp [getKeypoint, fitKps, List.find?, hnN, hnLS, hnRS]
  have hslope : slopeOf fitLS fitRS = 2/5 := by
    unfold slopeOf slopeDenom
    simp only [fitLS, fitRS]
    rw [max_eq_right (by norm_num)]
    norm_num
  exact (analyzePose_shoulder_levelness fitKps fitLS fitRS hn hgLS hgRS).mpr
    (by rw [hslope]; norm_num)

/-- Claim C7 counterexample: at shoulders `y = 100` / `y = 140` with
x-distance 100 the slope 0.4 exceeds the 0.1 threshold, yet the emitted
shoulder-levelness message has severity info and the result contains no
warning-severity message at all, so the claim's "severity warning" fails. -/
theorem analyzePose_shoulder_severity_cex :
    analyzePose fitPose PoseMode.fitness = [shoulderLevelMsg]
    ∧ shoulderLevelMsg.severity = Severity.info
    ∧ (0.1 : ℚ) < slopeOf fitLS fitRS
    ∧ (analyzePose fitPose PoseMode.fitness).all
        (fun i => i.severity != Severity.warning) = true := by
  have hv1 : analyzeVisible fitNose = true := by
    simp [analyzeVisible, fitNose]
    norm_num
  have hv2 : analyzeVisible fitLS = true := by
    simp [analyzeVisible, fitLS]
    norm_num
  have hv3 : analyzeVisible fitRS = true := by
    simp [analyzeVisible, fitRS]
    norm_num
  have hfil : fitKps.filter analyzeVisible = fitKps := by
    simp [fitKps, List.filter, hv1, hv2, hv3]
  have hnN : fitNose.name = some ("nose") := rfl
  have hnLS : fitLS.name = some ("left_shoulder") := rfl
  have hnRS : fitRS.name = some ("right_shoulder") := rfl
  have hn' : ¬fitKps.length < 3 := by
    simp [fitKps]
  have hgLS : getKeypoint fitKps ("left_shoulder") = some fitLS := by
    simp [getKeypoint, fitKps, List.find?, hnN, hnLS, hnRS]
  have hgRS : getKeypoint fitKps ("right_shoulder") = some fitRS := by
    simp [getKeypoint, fitKps, List.find?, hnN, hnLS, hnRS]
  have hgLH : getKeypoint fitKps ("left_hip") = none := by
    simp [getKeypoint, fitKps, List.find?, hnN, hnLS, hnRS]
  have hUp : hasUpperBody fitKps = true := by
    simp [hasUpperBody, hgLS, hgRS]
  have hLow : hasLowerBody fitKps = false := by
    simp [hasLowerBody, hgLH]
  have hslope : slopeOf fitLS fitRS = 2/5 := by
    unfold slopeOf slopeDenom
    simp only [fitLS, fitRS]
    rw [max_eq_right (by norm_num)]
    norm_num
  have hsc : shoulderCheckFitness fitKps = [shoulderLevelMsg] := by
    simp only [shoulderCheckFitness, hUp, if_true, hgLS, hgRS]
    rw [hslope, if_pos (by norm_num)]
  have hlc : lowerCheckFitness fitKps = [] := by
    simp [lowerCheckFitness, hLow]
  have hbc : backCheckFitness fitKps = [] := by
    simp [backCheckFitness, hUp, hLow]
  have hmain : analyzePose fitPose PoseMode.fitness = [shoulderLevelMsg] := by
    simp only [fitPose, analyzePose, hfil, hn', if_false, hsc, hlc, hbc,
      List.append_nil]
    simp
  refine ⟨hmain, rfl, by rw [hslope]; norm_num, ?_⟩
  rw [hmain]
  decide

end PoseCoach
